import Mathlib

/-!
Verification of the ADGM document-review pipeline (reviewer.py, checklist.py,
docx_utils.py).  The Python source is shallowly embedded: pure helpers become
Lean functions over `String`/`List`, external collaborators (the embedding
model, the FAISS index search, the generative model, the JSON parser) become
explicit parameters, and fallible paths return `Option`/`Except`.
-/

set_option maxRecDepth 4000

namespace ADGM

/-! ### String helpers mirroring the Python primitives used by the source -/

/-- Python `s.lower()`: lower-case every character. -/
def pyLower (s : String) : String := String.mk (s.toList.map Char.toLower)

/-- Python `s.strip()`: drop leading and trailing whitespace. -/
def pyStrip (s : String) : String :=
  String.mk (((s.toList.dropWhile Char.isWhitespace).reverse.dropWhile
    Char.isWhitespace).reverse)

/-- Python `s.strip(c)` for a single strip character `c`. -/
def pyStripChar (c : Char) (s : String) : String :=
  String.mk (((s.toList.dropWhile (· == c)).reverse.dropWhile (· == c)).reverse)

/-- Python `s[n:]`. -/
def pyDrop (s : String) (n : Nat) : String := String.mk (s.toList.drop n)

/-- Python `s.startswith(p)`. -/
def strStartsWith (s p : String) : Bool := p.toList.isPrefixOf s.toList

/-- Python `s.endswith(p)`. -/
def strEndsWith (s p : String) : Bool := p.toList.reverse.isPrefixOf s.toList.reverse

/-- Substring test on character lists: does `needle` occur contiguously in `hay`? -/
def listIsInfix (needle : List Char) : List Char → Bool
  | [] => needle.isEmpty
  | c :: t => needle.isPrefixOf (c :: t) || listIsInfix needle t

/-- Python `needle in hay` on strings: substring containment. -/
def strContains (hay needle : String) : Bool := listIsInfix needle.toList hay.toList

/-- Python list indexing `xs[i]`, including negative-index semantics; `none`
models the `IndexError` raise. -/
def pyGetElem {α : Type} (xs : List α) (i : Int) : Option α :=
  if i < 0 then
    if (xs.length : Int) + i < 0 then none else xs.get? ((xs.length : Int) + i).toNat
  else xs.get? i.toNat

/-- Python `d.get(k, default)` over an insertion-ordered dictionary. -/
def dictGetD {α : Type} (d : List (String × α)) (k : String) (dflt : α) : α :=
  match d.find? (fun p => p.1 == k) with
  | some p => p.2
  | none => dflt

/-- Concatenation of a list of strings (right fold). -/
def concatStrs (l : List String) : String := l.foldr (· ++ ·) ""

/-! ### Document Type Classifier (reviewer.py `DOC_TYPE_KEYWORDS`, `detect_doc_type`) -/

/-- `DOC_TYPE_KEYWORDS` from reviewer.py, in dict insertion order. -/
def DOC_TYPE_KEYWORDS : List (String × List String) :=
  [("Articles of Association",
      ["articles of association", "articles of association (", "articles of assoc"]),
   ("Memorandum of Association",
      ["memorandum of association", "memorandum of assoc", "moa"]),
   ("Board Resolution",
      ["board resolution", "resolution of the board", "board of directors resolution"]),
   ("Shareholder Resolution",
      ["shareholder resolution", "resolution of the shareholders"]),
   ("Incorporation Application Form",
      ["application for incorporation", "incorporation application"]),
   ("UBO Declaration Form",
      ["ubo declaration", "ultimate beneficial owner", "ubo"]),
   ("Register of Members and Directors",
      ["register of members", "register of directors", "register of members and directors"]),
   ("Change of Registered Address Notice",
      ["change of registered address", "registered address notice"]),
   ("Employment Contract",
      ["standard employment contract", "employment contract"]),
   ("Data Protection Policy",
      ["appropriate policy document", "data protection"])]

/-- The inner loop body of `detect_doc_type`: does any keyword of the entry
occur in the (lower-cased) text? -/
def typeMatches (txt : String) (p : String × List String) : Bool :=
  p.2.any (fun kw => strContains txt kw)

/-- reviewer.py `detect_doc_type`: lower-case the text, then return the first
dict entry with a matching keyword, default `"Unknown"`. -/
def detect_doc_type (text : String) : String :=
  match DOC_TYPE_KEYWORDS.find? (typeMatches (pyLower text)) with
  | some p => p.1
  | none => "Unknown"

/-! ### Process detection (reviewer.py `detect_process`, `REQUIRED_DOCS`) -/

/-- The anchor-type list literal inside reviewer.py `detect_process`. -/
def ANCHOR_TYPES : List String :=
  ["Articles of Association", "Memorandum of Association", "Incorporation Application Form"]

/-- reviewer.py `detect_process`. -/
def detect_process (uploaded_types : List String) : String :=
  if uploaded_types.any (fun t => ANCHOR_TYPES.contains t) then "Company Incorporation"
  else "Unknown"

/-- The required-documents list for "Company Incorporation" (identical in
reviewer.py `REQUIRED_DOCS` and checklist.py `REQUIRED`). -/
def INCORPORATION_REQUIRED : List String :=
  ["Articles of Association", "Memorandum of Association",
   "Incorporation Application Form", "UBO Declaration Form",
   "Register of Members and Directors"]

/-- reviewer.py `REQUIRED_DOCS`. -/
def REQUIRED_DOCS : List (String × List String) :=
  [("Company Incorporation", INCORPORATION_REQUIRED)]

/-- reviewer.py `REQUIRED_DOCS.get(process, [])`. -/
def requiredFor (process : String) : List String := dictGetD REQUIRED_DOCS process []

/-- The `missing` computation of analyze_uploads_folder / checklist.compare:
`[r for r in required if r not in uploaded_types]`. -/
def missingFor (process : String) (uploaded_types : List String) : List String :=
  (requiredFor process).filter (fun r => !(uploaded_types.contains r))

namespace Checklist

/-- checklist.py `REQUIRED`. -/
def REQUIRED : List (String × List String) :=
  [("Company Incorporation", ADGM.INCORPORATION_REQUIRED)]

/-- checklist.py `detect_process`: counts uploaded types occurring in the
required list (all five entries, not only anchors) and requires at least 2. -/
def detect_process (doc_types : List String) : String :=
  let inc_count := (doc_types.filter (fun t => ADGM.INCORPORATION_REQUIRED.contains t)).length
  if 2 ≤ inc_count then "Company Incorporation" else "Unknown"

/-- checklist.py `compare` result record. -/
structure CompareResult where
  process : String
  uploaded : Nat
  required : Nat
  missing : List String
deriving DecidableEq

/-- checklist.py `compare`. -/
def compare (uploaded_types : List String) (process_name : String) : CompareResult :=
  let required := ADGM.dictGetD REQUIRED process_name []
  let missing := required.filter (fun r => !(uploaded_types.contains r))
  ⟨process_name, uploaded_types.length, required.length, missing⟩

end Checklist

/-! ### Context Retriever (reviewer.py `retrieve_context`)

The external FAISS `IndexFlatL2` holds `n` vectors; the distance from the
query embedding to stored vector `i` is abstracted as `dist i`.  FAISS
`index.search(q, k)` returns the `k` smallest distances in ascending order;
when the index holds fewer than `k` vectors the remaining result slots are
filled with label `-1` and distance `FLT_MAX` (documented FAISS behaviour).
The loop body then reads `data["texts"][idx]` / `data["metadatas"][idx]`
with plain Python indexing, so a `-1` label resolves to the LAST element. -/

/-- One retrieved hit: `{"text": ..., "meta": ...}`. -/
structure Hit where
  text : String
  meta : String
deriving DecidableEq

/-- The single-precision float maximum, used by FAISS to pad short results. -/
def FLT_MAX : ℚ := 2 ^ 128 - 2 ^ 104

/-- Comparison of search candidates by distance. -/
def distLe (a b : ℚ × Int) : Prop := a.1 ≤ b.1

instance : DecidableRel distLe := fun a b => inferInstanceAs (Decidable (a.1 ≤ b.1))

instance : IsTotal (ℚ × Int) distLe := ⟨fun a b => le_total a.1 b.1⟩

instance : IsTrans (ℚ × Int) distLe := ⟨fun _ _ _ h1 h2 => le_trans h1 h2⟩

/-- The candidate list `[(dist i, i) for i in range(n)]` of the flat index. -/
def searchPairs (n : Nat) (dist : Nat → ℚ) : List (ℚ × Int) :=
  (List.range n).map (fun i => (dist i, (i : Int)))

/-- FAISS `index.search` on a flat L2 index with `n` stored vectors: the `k`
nearest (distance, label) pairs in ascending distance order, padded with
`(FLT_MAX, -1)` when fewer than `k` vectors are stored. -/
def faissSearch (n : Nat) (dist : Nat → ℚ) (k : Nat) : List (ℚ × Int) :=
  (List.insertionSort distLe (searchPairs n dist)).take k
    ++ List.replicate (k - n) (FLT_MAX, (-1 : Int))

/-- The `for idx in I[0]: hits.append(...)` loop of `retrieve_context`;
`none` models an `IndexError` raise. -/
def buildHits (texts metas : List String) : List (ℚ × Int) → Option (List Hit)
  | [] => some []
  | p :: rest =>
    match pyGetElem texts p.2, pyGetElem metas p.2, buildHits texts metas rest with
    | some t, some m, some hs => some (⟨t, m⟩ :: hs)
    | _, _, _ => none

/-- reviewer.py `retrieve_context`, with the index (`n`, `dist`) and the
pickled `data["texts"]`/`data["metadatas"]` arrays made explicit. -/
def retrieve_context (n : Nat) (dist : Nat → ℚ) (texts metas : List String)
    (top_k : Nat) : Option (List Hit) :=
  buildHits texts metas (faissSearch n dist top_k)

/-! ### Compliance Analyzer (reviewer.py `call_gemini_for_review`) -/

/-- An entry of the issue list returned by the Analyzer: either a value
parsed from the model's JSON, or the synthetic parse-failure record
`{"error": ..., "raw": ...}`. -/
inductive Issue (α : Type) where
  | parsed (v : α)
  | parseFail (error : String) (raw : String)
deriving DecidableEq

/-- The `"error"` value of the synthetic parse-failure issue. -/
def PARSE_FAIL_MSG : String := "LLM did not return valid JSON"

/-- The backquote character stripped by `output_text.strip("` + "`" + `")`. -/
def BACKTICK : Char := Char.ofNat 96

/-- The code-fence stripping step of `call_gemini_for_review`. -/
def stripFences (s : String) : String :=
  if strStartsWith s "```" then
    let s1 := pyStripChar BACKTICK s
    if strStartsWith (pyLower s1) "json" then pyStrip (pyDrop s1 4) else s1
  else s

/-- The fixed prompt template of `call_gemini_for_review`. -/
def buildPrompt (context_chunks : List Hit) (doc_text : String) : String :=
  let context_text := String.intercalate "\n---\n" (context_chunks.map (·.text))
  "\nYou are an expert ADGM compliance reviewer.\n" ++
  "Use the ADGM reference excerpts below to identify:\n" ++
  "- Missing or incorrect clauses\n" ++
  "- Wrong jurisdiction references\n" ++
  "- Missing required sections/signatures\n" ++
  "- Ambiguous language\n" ++
  "- Non-compliance with ADGM templates\n\n" ++
  "ADGM REFERENCE MATERIAL:\n" ++ context_text ++
  "\n\nDOCUMENT TO REVIEW:\n" ++ doc_text ++
  "\n\nReturn a JSON array of issues with fields:\n" ++
  "document_section (approx), issue, severity (Low/Medium/High), suggestion, source_reference.\n"

/-- reviewer.py `call_gemini_for_review`.  The external generative call is the
parameter `generate` (an `Except.error` models the call raising, which the
source does not catch); `parseJson` abstracts `json.loads`, with `none`
modelling `json.JSONDecodeError` — the only exception the source catches. -/
def call_gemini_for_review {α : Type} (generate : String → Except String String)
    (parseJson : String → Option (List α)) (context_chunks : List Hit)
    (doc_text : String) : Except String (List (Issue α)) :=
  match generate (buildPrompt context_chunks doc_text) with
  | .error e => .error e
  | .ok t =>
    match parseJson (stripFences (pyStrip t)) with
    | some issues => .ok (issues.map Issue.parsed)
    | none => .ok [Issue.parseFail PARSE_FAIL_MSG (stripFences (pyStrip t))]

/-! ### Annotator (reviewer.py add_inline_annotation)

A document is modelled by the list of its paragraphs' texts (`None` for the
PDF path); `add_run` appends the run's text to the paragraph's text.  Bold
and colour are presentational and carry no text content. -/

/-- The inline note text `f"  [REVIEW: {comment}]"`. -/
def REVIEW_MARK (comment : String) : String := "  [REVIEW: " ++ comment ++ "]"

/-- reviewer.py add_inline_annotation: no-op on `None` documents and on
out-of-range paragraph indices, otherwise appends the review run. -/
def add_inline_annotation (doc : Option (List String)) (para_index : Int)
    (comment : String) : Option (List String) :=
  match doc with
  | none => none
  | some ps =>
    if 0 ≤ para_index ∧ para_index < (ps.length : Int) then
      some (ps.set para_index.toNat (ps.getD para_index.toNat "" ++ REVIEW_MARK comment))
    else some ps

/-- The `for issue in issues: add_inline_annotation(doc, idx, ...)` loop of
`analyze_single_file`, over resolved (index, comment) pairs. -/
def applyAnnots (doc : Option (List String)) (annots : List (Int × String)) :
    Option (List String) :=
  annots.foldl (fun d a => add_inline_annotation d a.1 a.2) doc

/-! ### Single-file and batch pipeline (reviewer.py `analyze_single_file`,
`analyze_uploads_folder`)

The extension dispatch of `analyze_single_file` is embedded exactly; the rest
of the per-file work (retrieval, model call, annotation, save) is abstracted
by a `single` parameter in the batch model, since the batch-level claims only
depend on each file's resulting record.  The batch returns its result
(`Except.error` models the `FileNotFoundError` raise) together with the list
of report files written. -/

/-- The supported-format dispatch at the top of `analyze_single_file`. -/
inductive FileKind where
  | docx
  | pdf
deriving DecidableEq

/-- `analyze_single_file`'s extension check:
`.docx` and `.pdf` (case-insensitively) are accepted, all else raises. -/
def analyze_single_file_dispatch (path : String) : Except String FileKind :=
  if strEndsWith (pyLower path) ".docx" then .ok .docx
  else if strEndsWith (pyLower path) ".pdf" then .ok .pdf
  else .error ("Unsupported file type: " ++ path)

/-- A file is supported by the single-document path (its text can be
extracted) iff its lower-cased name ends in `.docx` or `.pdf`. -/
def supported_by_single_path (f : String) : Bool :=
  strEndsWith (pyLower f) ".docx" || strEndsWith (pyLower f) ".pdf"

/-- The per-file record the batch keeps: `{"file": ..., "doc_type": ...}`
(the issue list and reviewed path play no role in the batch-level claims). -/
structure FileResult where
  file : String
  doc_type : String
deriving DecidableEq

/-- The combined report structure of `analyze_uploads_folder`. -/
structure CombinedOutput where
  process : String
  documents_uploaded : Nat
  required_documents : Nat
  missing_documents : List String
  per_file_results : List FileResult
deriving DecidableEq

/-- Python `sorted` on path strings (ascending; the comparison itself is
irrelevant to every claim). -/
def sortStrings (l : List String) : List String :=
  List.insertionSort (fun a b : String => ¬ b < a) l

/-- The combined-report computation of `analyze_uploads_folder` on the
located file list: per-file results, collected types, process detection,
checklist difference. -/
def batchCombined (single : String → FileResult) (files : List String) :
    CombinedOutput :=
  let results := files.map single
  let uploaded_types := results.map (·.doc_type)
  let process := detect_process uploaded_types
  let required := requiredFor process
  let missing := required.filter (fun r => !(uploaded_types.contains r))
  ⟨process, files.length, required.length, missing, results⟩

/-- reviewer.py `analyze_uploads_folder` over the list of paths present in
the uploads directory.  `glob(uploads_dir + "/*.docx")` keeps exactly the
paths ending in `.docx` (case-sensitively), then `sorted` orders them.  The
second component records the report files written: nothing is written on the
error path. -/
def analyze_uploads_folder (single : String → FileResult) (uploads_dir : String)
    (dirFiles : List String) :
    Except String CombinedOutput × List (String × CombinedOutput) :=
  if (sortStrings (dirFiles.filter (fun f => strEndsWith f ".docx"))).isEmpty then
    (.error ("No .docx files found in '" ++ uploads_dir ++ "'"), [])
  else
    (.ok (batchCombined single (sortStrings (dirFiles.filter (fun f => strEndsWith f ".docx")))),
     [("reports/combined_review_report.json",
       batchCombined single (sortStrings (dirFiles.filter (fun f => strEndsWith f ".docx"))))])

/-! ### Helper lemmas -/

theorem str_append_empty (a : String) : a ++ "" = a :=
  String.ext (by rw [String.data_append]; exact List.append_nil _)

theorem str_append_assoc (a b c : String) : a ++ b ++ c = a ++ (b ++ c) :=
  String.ext (by simp only [String.data_append]; exact List.append_assoc ..)

theorem getD_set_self {α : Type} (l : List α) (i : Nat) (a d : α) (h : i < l.length) :
    (l.set i a).getD i d = a := by
  induction l generalizing i with
  | nil => simp at h
  | cons x xs ih =>
    cases i with
    | zero => rfl
    | succ n => exact ih n (Nat.lt_of_succ_lt_succ h)

theorem getD_set_other {α : Type} (l : List α) (i j : Nat) (a d : α) (h : i ≠ j) :
    (l.set i a).getD j d = l.getD j d := by
  induction l generalizing i j with
  | nil => rfl
  | cons x xs ih =>
    cases i with
    | zero =>
      cases j with
      | zero => exact absurd rfl h
      | succ m => rfl
    | succ n =>
      cases j with
      | zero => rfl
      | succ m => exact ih n m (fun hh => h (by rw [hh]))

theorem detect_process_ci_iff (ts : List String) :
    detect_process ts = "Company Incorporation" ↔ ∃ t ∈ ts, t ∈ ANCHOR_TYPES := by
  unfold detect_process
  by_cases h : ts.any (fun t => ANCHOR_TYPES.contains t)
  · rw [if_pos h]
    simp only [List.any_eq_true, List.elem_iff] at h
    exact iff_of_true rfl h
  · rw [if_neg h]
    simp only [List.any_eq_true, List.elem_iff] at h
    exact iff_of_false (by decide) h

theorem find?_first {α : Type} (f : α → Bool) (l1 l2 : List α) (p : α)
    (h1 : ∀ q ∈ l1, f q = false) (hp : f p = true) :
    (l1 ++ p :: l2).find? f = some p := by
  induction l1 with
  | nil => exact List.find?_cons_of_pos _ hp
  | cons x xs ih =>
    rw [List.cons_append, List.find?_cons_of_neg _ (by simp [h1 x (by simp)])]
    exact ih (fun q hq => h1 q (by simp [hq]))

/-! ### C3: process detection is anchored on the three anchor types -/

/-- Claim C3 (confirmed): for every list of detected Document Types,
`detect_process` returns "Company Incorporation" iff at least one of the
three anchor types occurs in the list, and returns "Unknown" otherwise. -/
theorem c3_detect_process_iff (ts : List String) :
    (detect_process ts = "Company Incorporation" ↔ ∃ t ∈ ts, t ∈ ANCHOR_TYPES) ∧
    (detect_process ts = "Unknown" ↔ ¬ ∃ t ∈ ts, t ∈ ANCHOR_TYPES) := by
  refine ⟨detect_process_ci_iff ts, ?_⟩
  unfold detect_process
  by_cases h : ts.any (fun t => ANCHOR_TYPES.contains t)
  · rw [if_pos h]
    simp only [List.any_eq_true, List.elem_iff] at h
    exact iff_of_false (by decide) (by simpa using h)
  · rw [if_neg h]
    simp only [List.any_eq_true, List.elem_iff] at h
    exact iff_of_true rfl h

/-! ### C4: the classifier is first-match, not every-match -/

/-- Claim C4 (counterexample): the text "moa board resolution" contains the
registered phrase "board resolution" of Document Type "Board Resolution",
yet the Classifier returns "Memorandum of Association" (an earlier entry
whose phrase "moa" also occurs), so "contains a phrase of T implies the
Classifier returns T" fails as a universal statement. -/
theorem c4_counterexample :
    detect_doc_type "moa board resolution" = "Memorandum of Association" ∧
    ("Board Resolution",
      ["board resolution", "resolution of the board", "board of directors resolution"]) ∈
      DOC_TYPE_KEYWORDS ∧
    strContains (pyLower "moa board resolution") "board resolution" = true ∧
    "Memorandum of Association" ≠ "Board Resolution" :=
  ⟨rfl, by decide, rfl, by decide⟩

/-- Claim C4 (amended): the Classifier is total and first-match: it returns
"Unknown" when no registered phrase of any type occurs in the lower-cased
text, and returns the Document Type of the first entry (in the fixed
enumeration order of `DOC_TYPE_KEYWORDS`) with an occurring phrase — so a
text matching a phrase of T is classified as T whenever no earlier entry
also matches. -/
theorem c4_amended_first_match (text : String) :
    ((∀ p ∈ DOC_TYPE_KEYWORDS, typeMatches (pyLower text) p = false) →
      detect_doc_type text = "Unknown") ∧
    (∀ (l1 : List (String × List String)) (p : String × List String)
        (l2 : List (String × List String)),
      DOC_TYPE_KEYWORDS = l1 ++ p :: l2 →
      (∀ q ∈ l1, typeMatches (pyLower text) q = false) →
      typeMatches (pyLower text) p = true →
      detect_doc_type text = p.1) := by
  constructor
  · intro h
    unfold detect_doc_type
    rw [List.find?_eq_none.mpr (fun x hx => by simp [h x hx])]
  · intro l1 p l2 hdec h1 hp
    unfold detect_doc_type
    rw [hdec, find?_first _ l1 l2 p h1 hp]

/-- Unfolding equation of ` add_inline_annotation` on a present document. -/
theorem add_inline_annot_some (ps : List String) (i : Int) (c : String) :
    add_inline_annotation (some ps) i c =
      if 0 ≤ i ∧ i < (ps.length : Int) then
        some (ps.set i.toNat (ps.getD i.toNat "" ++ REVIEW_MARK c))
      else some ps := rfl

/-- Witness for C4: "Board Resolution agenda" matches no phrase of the two
entries before "Board Resolution" and matches its phrase, so it is
classified as "Board Resolution" (case-insensitively). -/
theorem c4_witness : detect_doc_type "Board Resolution agenda" = "Board Resolution" :=
  (c4_amended_first_match "Board Resolution agenda").2
    [("Articles of Association",
        ["articles of association", "articles of association (", "articles of assoc"]),
     ("Memorandum of Association",
        ["memorandum of association", "memorandum of assoc", "moa"])]
    ("Board Resolution",
      ["board resolution", "resolution of the board", "board of directors resolution"])
    [("Shareholder Resolution",
        ["shareholder resolution", "resolution of the shareholders"]),
     ("Incorporation Application Form",
        ["application for incorporation", "incorporation application"]),
     ("UBO Declaration Form",
        ["ubo declaration", "ultimate beneficial owner", "ubo"]),
     ("Register of Members and Directors",
        ["register of members", "register of directors", "register of members and directors"]),
     ("Change of Registered Address Notice",
        ["change of registered address", "registered address notice"]),
     ("Employment Contract",
        ["standard employment contract", "employment contract"]),
     ("Data Protection Policy",
        ["appropriate policy document", "data protection"])]
    rfl (by decide) (by decide)

/-! ### C6: checklist comparison -/

/-- Claim C6 (confirmed): `missing` is the required list filtered to the
types absent from the uploaded list — a subsequence of the required list
(order preserved), empty iff every required type occurs in the uploaded
list, containing exactly the required types with zero occurrences; the
required list of an unknown process is empty. -/
theorem c6_missing_documents (process : String) (uploaded : List String) :
    (missingFor process uploaded).Sublist (requiredFor process) ∧
    (missingFor process uploaded = [] ↔ ∀ r ∈ requiredFor process, r ∈ uploaded) ∧
    (∀ r, r ∈ missingFor process uploaded ↔ r ∈ requiredFor process ∧ r ∉ uploaded) ∧
    (process ≠ "Company Incorporation" → requiredFor process = []) := by
  refine ⟨List.filter_sublist _, ?_, ?_, ?_⟩
  · unfold missingFor
    rw [List.filter_eq_nil_iff]
    constructor
    · intro h r hr
      have := h r hr
      simpa [List.elem_iff] using this
    · intro h r hr
      simp [List.elem_iff, h r hr]
  · intro r
    unfold missingFor
    rw [List.mem_filter]
    simp [List.elem_iff]
  · intro h
    unfold requiredFor dictGetD REQUIRED_DOCS
    rw [List.find?_cons_of_neg _ (by simp only [beq_iff_eq]; exact fun hh => h hh.symm)]
    rfl

/-- Witness for C6: with only "Articles of Association" uploaded for the
incorporation process, "UBO Declaration Form" is missing; an unknown process
has an empty required list. -/
theorem c6_witness :
    "UBO Declaration Form" ∈ missingFor "Company Incorporation" ["Articles of Association"] ∧
    requiredFor "Some Other Process" = [] :=
  ⟨((c6_missing_documents "Company Incorporation" ["Articles of Association"]).2.2.1
      "UBO Declaration Form").mpr (by decide),
   (c6_missing_documents "Some Other Process" []).2.2.2 (by decide)⟩

/-! ### C10: the annotator is total and bounds-safe -/

/-- Claim C10 (confirmed): add_inline_annotation is a total function; on a
`None` document it is a no-op, on an out-of-range integer index it returns
the document unchanged, and only for an in-range index does it append the
review run — leaving the paragraph count and every other paragraph intact. -/
theorem c10_annotate_total_safe (ps : List String) (i : Int) (c : String) :
    add_inline_annotation none i c = none ∧
    (¬(0 ≤ i ∧ i < (ps.length : Int)) → add_inline_annotation (some ps) i c = some ps) ∧
    ((0 ≤ i ∧ i < (ps.length : Int)) →
      ∃ qs, add_inline_annotation (some ps) i c = some qs ∧
        qs.length = ps.length ∧
        qs.getD i.toNat "" = ps.getD i.toNat "" ++ REVIEW_MARK c ∧
        ∀ j, j ≠ i.toNat → qs.getD j "" = ps.getD j "") := by
  refine ⟨rfl, ?_, ?_⟩
  · intro h
    rw [add_inline_annot_some, if_neg h]
  · intro h
    have hlt : i.toNat < ps.length := by omega
    refine ⟨ps.set i.toNat (ps.getD i.toNat "" ++ REVIEW_MARK c), ?_, List.length_set .., ?_, ?_⟩
    · rw [add_inline_annot_some, if_pos h]
    · exact getD_set_self _ _ _ _ hlt
    · intro j hj
      exact getD_set_other _ _ _ _ _ (fun hh => hj hh.symm)

/-- Witness for C10: concrete in-range and out-of-range cases on a
two-paragraph document. -/
theorem c10_witness :
    add_inline_annotation (some ["a", "b"]) 5 "x" = some ["a", "b"] ∧
    (∃ qs, add_inline_annotation (some ["a", "b"]) 1 "x" = some qs ∧
      qs.length = (["a", "b"] : List String).length ∧
      qs.getD (1 : Int).toNat "" = (["a", "b"] : List String).getD (1 : Int).toNat "" ++
        REVIEW_MARK "x" ∧
      ∀ j, j ≠ (1 : Int).toNat → qs.getD j "" = (["a", "b"] : List String).getD j "") :=
  ⟨(c10_annotate_total_safe ["a", "b"] 5 "x").2.1 (by decide),
   (c10_annotate_total_safe ["a", "b"] 1 "x").2.2 (by decide)⟩

/-! ### C8: annotation round-trip -/

/-- Claim C8 (confirmed): applying any sequence of issue annotations to a
document leaves the paragraph count unchanged, and every output paragraph is
the corresponding original paragraph followed by the concatenation of zero
or more appended "[REVIEW: ...]" markers (hence the original text is a
prefix of the output text). -/
theorem c8_annotate_roundtrip (ps : List String) (annots : List (Int × String)) :
    ∃ qs, applyAnnots (some ps) annots = some qs ∧
      qs.length = ps.length ∧
      ∀ j, j < ps.length →
        ∃ ms : List String, (∀ m ∈ ms, ∃ c, m = REVIEW_MARK c) ∧
          qs.getD j "" = ps.getD j "" ++ concatStrs ms := by
  induction annots generalizing ps with
  | nil =>
    exact ⟨ps, rfl, rfl, fun j hj => ⟨[], by simp, (str_append_empty _).symm⟩⟩
  | cons a rest ih =>
    have hstep : applyAnnots (some ps) (a :: rest) =
        applyAnnots ( add_inline_annotation (some ps) a.1 a.2) rest := rfl
    by_cases h : 0 ≤ a.1 ∧ a.1 < (ps.length : Int)
    · have hlt : a.1.toNat < ps.length := by omega
      have heq : add_inline_annotation (some ps) a.1 a.2 =
          some (ps.set a.1.toNat (ps.getD a.1.toNat "" ++ REVIEW_MARK a.2)) := by
        rw [add_inline_annot_some, if_pos h]
      obtain ⟨qs, h1, h2, h3⟩ := ih (ps.set a.1.toNat (ps.getD a.1.toNat "" ++ REVIEW_MARK a.2))
      refine ⟨qs, by rw [hstep, heq]; exact h1, by rw [h2, List.length_set], ?_⟩
      intro j hj
      have hj1 : j < (ps.set a.1.toNat (ps.getD a.1.toNat "" ++ REVIEW_MARK a.2)).length := by
        rw [List.length_set]; exact hj
      obtain ⟨ms, hms, hqs⟩ := h3 j hj1
      by_cases hji : j = a.1.toNat
      · subst hji
        refine ⟨REVIEW_MARK a.2 :: ms, ?_, ?_⟩
        · intro m hm
          rcases List.mem_cons.mp hm with hm | hm
          · exact ⟨a.2, hm⟩
          · exact hms m hm
        · rw [hqs, getD_set_self _ _ _ _ hlt, str_append_assoc]
          rfl
      · exact ⟨ms, hms, by rw [hqs, getD_set_other _ _ _ _ _ (fun hh => hji hh.symm)]⟩
    · have heq : add_inline_annotation (some ps) a.1 a.2 = some ps := by
        rw [add_inline_annot_some, if_neg h]
      obtain ⟨qs, h1, h2, h3⟩ := ih ps
      exact ⟨qs, by rw [hstep, heq]; exact h1, h2, h3⟩

/-- Witness for C8: annotating a one-paragraph document with one issue,
evaluated concretely and via the round-trip theorem. -/
theorem c8_witness :
    applyAnnots (some ["p"]) [((0 : Int), "fix")] = some ["p  [REVIEW: fix]"] ∧
    (∃ qs, applyAnnots (some ["p"]) [((0 : Int), "fix")] = some qs ∧
      qs.length = (["p"] : List String).length ∧
      ∀ j, j < (["p"] : List String).length →
        ∃ ms : List String, (∀ m ∈ ms, ∃ c, m = REVIEW_MARK c) ∧
          qs.getD j "" = (["p"] : List String).getD j "" ++ concatStrs ms) :=
  ⟨rfl, c8_annotate_roundtrip ["p"] [((0 : Int), "fix")]⟩

/-! ### Batch-pipeline helper lemmas -/

theorem sortStrings_eq_nil_iff (l : List String) : sortStrings l = [] ↔ l = [] := by
  constructor
  · intro h
    have hlen := congrArg List.length h
    rw [sortStrings, List.length_insertionSort] at hlen
    exact List.eq_nil_of_length_eq_zero hlen
  · rintro rfl
    rfl

theorem docx_lower_of_docx (f : String) (h : strEndsWith f ".docx" = true) :
    strEndsWith (pyLower f) ".docx" = true := by
  rw [strEndsWith, List.isPrefixOf_iff_prefix] at h ⊢
  have h3 := List.IsPrefix.map Char.toLower h
  rw [show List.map Char.toLower (".docx".toList.reverse) = ".docx".toList.reverse by decide]
    at h3
  show _ <+: (f.toList.map Char.toLower).reverse
  rw [← List.map_reverse]
  exact h3

theorem analyze_eq_error_of_no_docx (single : String → FileResult) (uploads_dir : String)
    (dirFiles : List String)
    (h : dirFiles.filter (fun f => strEndsWith f ".docx") = []) :
    analyze_uploads_folder single uploads_dir dirFiles =
      (.error ("No .docx files found in '" ++ uploads_dir ++ "'"), []) := by
  unfold analyze_uploads_folder
  rw [h]
  rfl

theorem analyze_eq_ok_of_docx (single : String → FileResult) (uploads_dir : String)
    (dirFiles : List String)
    (h : dirFiles.filter (fun f => strEndsWith f ".docx") ≠ []) :
    analyze_uploads_folder single uploads_dir dirFiles =
      (.ok (batchCombined single
          (sortStrings (dirFiles.filter (fun f => strEndsWith f ".docx")))),
       [("reports/combined_review_report.json",
         batchCombined single
           (sortStrings (dirFiles.filter (fun f => strEndsWith f ".docx"))))]) := by
  unfold analyze_uploads_folder
  rw [if_neg]
  intro hE
  exact h ((sortStrings_eq_nil_iff _).mp (List.isEmpty_iff.mp hE))

/-! ### C7: the empty batch fails fatally with nothing written -/

/-- Claim C7 (confirmed): when the uploads location contains zero documents
supported by the single-document path (no `.docx` and no `.pdf` in any
letter case), the batch raises the "No .docx files found" error and the
write log is empty — no combined report, partial or otherwise, is
produced. -/
theorem c7_empty_batch_fatal (single : String → FileResult) (uploads_dir : String)
    (dirFiles : List String)
    (h : dirFiles.filter supported_by_single_path = []) :
    analyze_uploads_folder single uploads_dir dirFiles =
      (.error ("No .docx files found in '" ++ uploads_dir ++ "'"), []) := by
  have hall : ∀ f ∈ dirFiles, supported_by_single_path f = false := by
    intro f hf
    have := List.filter_eq_nil_iff.mp h f hf
    simpa using this
  have hdocx : dirFiles.filter (fun f => strEndsWith f ".docx") = [] := by
    rw [List.filter_eq_nil_iff]
    intro f hf hcontra
    have hs := hall f hf
    have hdl := docx_lower_of_docx f (by simpa using hcontra)
    unfold supported_by_single_path at hs
    rw [hdl] at hs
    simp at hs
  exact analyze_eq_error_of_no_docx single uploads_dir dirFiles hdocx

/-- Witness for C7: a folder holding only `readme.txt` (unsupported) makes
the batch fail fatally with an empty write log. -/
theorem c7_witness :
    analyze_uploads_folder (fun p => ⟨p, "Unknown"⟩) "uploads" ["readme.txt"] =
      (.error "No .docx files found in 'uploads'", []) :=
  c7_empty_batch_fatal (fun p => ⟨p, "Unknown"⟩) "uploads" ["readme.txt"] (by decide)

/-! ### C2: a single anchor-type document already triggers the process -/

/-- Claim C2 (counterexample): a batch holding exactly one document whose
detected type is "Articles of Association" (a single anchor) yields
`process = "Company Incorporation"` — the batch pipeline's detection has no
two-document minimum. -/
theorem c2_counterexample :
    (analyze_uploads_folder (fun p => ⟨p, "Articles of Association"⟩) "uploads"
        ["uploads/a.docx"]).1 =
      Except.ok ⟨"Company Incorporation", 1, 5,
        ["Memorandum of Association", "Incorporation Application Form",
         "UBO Declaration Form", "Register of Members and Directors"],
        [⟨"uploads/a.docx", "Articles of Association"⟩]⟩ := rfl

/-- Claim C2 (amended): in every batch run that produces a report, the
detected process is "Company Incorporation" iff at least ONE per-file result
carries an anchor type — a single anchor-type document suffices.  (The
two-document minimum exists only in the unused checklist-module variant,
which moreover counts all five required types, not just anchors: there a
single "Articles of Association" yields "Unknown" while two non-anchor
required types already yield "Company Incorporation".) -/
theorem c2_amended_single_anchor_suffices (single : String → FileResult)
    (uploads_dir : String) (dirFiles : List String) (out : CombinedOutput)
    (h : (analyze_uploads_folder single uploads_dir dirFiles).1 = .ok out) :
    (out.process = "Company Incorporation" ↔
      ∃ r ∈ out.per_file_results, r.doc_type ∈ ANCHOR_TYPES) ∧
    Checklist.detect_process ["Articles of Association"] = "Unknown" ∧
    Checklist.detect_process
      ["UBO Declaration Form", "Register of Members and Directors"] =
      "Company Incorporation" := by
  refine ⟨?_, rfl, rfl⟩
  by_cases hd : dirFiles.filter (fun f => strEndsWith f ".docx") = []
  · rw [analyze_eq_error_of_no_docx single uploads_dir dirFiles hd] at h
    exact absurd h (by simp)
  · rw [analyze_eq_ok_of_docx single uploads_dir dirFiles hd] at h
    have h2 : batchCombined single
        (sortStrings (dirFiles.filter (fun f => strEndsWith f ".docx"))) = out :=
      Except.ok.inj h
    rw [← h2]
    rw [show (batchCombined single
          (sortStrings (dirFiles.filter (fun f => strEndsWith f ".docx")))).process =
        detect_process (((sortStrings
          (dirFiles.filter (fun f => strEndsWith f ".docx"))).map single).map
            (fun r => r.doc_type)) from rfl,
       show (batchCombined single
          (sortStrings (dirFiles.filter (fun f => strEndsWith f ".docx")))).per_file_results =
        (sortStrings (dirFiles.filter (fun f => strEndsWith f ".docx"))).map single from rfl,
       detect_process_ci_iff]
    constructor
    · rintro ⟨t, ht, hA⟩
      obtain ⟨r, hr, rfl⟩ := List.mem_map.mp ht
      exact ⟨r, hr, hA⟩
    · rintro ⟨r, hr, hA⟩
      exact ⟨r.doc_type, List.mem_map.mpr ⟨r, hr, rfl⟩, hA⟩

/-- Witness for C2's amended claim, at the single-anchor batch of the
counterexample input. -/
theorem c2_witness :
    ((⟨"Company Incorporation", 1, 5,
        ["Memorandum of Association", "Incorporation Application Form",
         "UBO Declaration Form", "Register of Members and Directors"],
        [⟨"uploads/a.docx", "Articles of Association"⟩]⟩ : CombinedOutput).process =
        "Company Incorporation" ↔
      ∃ r ∈ (⟨"Company Incorporation", 1, 5,
        ["Memorandum of Association", "Incorporation Application Form",
         "UBO Declaration Form", "Register of Members and Directors"],
        [⟨"uploads/a.docx", "Articles of Association"⟩]⟩ : CombinedOutput).per_file_results,
        r.doc_type ∈ ANCHOR_TYPES) ∧
    Checklist.detect_process ["Articles of Association"] = "Unknown" ∧
    Checklist.detect_process
      ["UBO Declaration Form", "Register of Members and Directors"] =
      "Company Incorporation" :=
  c2_amended_single_anchor_suffices (fun p => ⟨p, "Articles of Association"⟩) "uploads"
    ["uploads/a.docx"] _ rfl

/-! ### C9: the batch only picks up .docx files, never PDFs -/

/-- Claim C9 (counterexample): a folder holding one PDF — a file the
single-document path accepts for text extraction — makes the batch raise
"No .docx files found" instead of processing it: the batch locates only
`.docx` files. -/
theorem c9_counterexample :
    analyze_uploads_folder (fun p => ⟨p, "Unknown"⟩) "uploads" ["uploads/a.pdf"] =
      (.error "No .docx files found in 'uploads'", []) ∧
    analyze_single_file_dispatch "uploads/a.pdf" = .ok FileKind.pdf ∧
    supported_by_single_path "uploads/a.pdf" = true :=
  ⟨rfl, rfl, rfl⟩

/-- Claim C9 (amended): the batch pipeline locates exactly the files whose
path ends in ".docx" (case-sensitively) and runs the per-file analysis on
those alone; it fails with the "No .docx files found" error iff there is no
such file — PDFs accepted by the single-document path are never picked
up. -/
theorem c9_amended_docx_only (single : String → FileResult) (uploads_dir : String)
    (dirFiles : List String) :
    ((dirFiles.filter (fun f => strEndsWith f ".docx") = []) ↔
      (analyze_uploads_folder single uploads_dir dirFiles).1 =
        .error ("No .docx files found in '" ++ uploads_dir ++ "'")) ∧
    (∀ out, (analyze_uploads_folder single uploads_dir dirFiles).1 = .ok out →
      out.per_file_results =
        (sortStrings (dirFiles.filter (fun f => strEndsWith f ".docx"))).map single ∧
      out.documents_uploaded =
        (dirFiles.filter (fun f => strEndsWith f ".docx")).length) := by
  constructor
  · constructor
    · intro h
      rw [analyze_eq_error_of_no_docx single uploads_dir dirFiles h]
    · intro h
      by_cases hd : dirFiles.filter (fun f => strEndsWith f ".docx") = []
      · exact hd
      · rw [analyze_eq_ok_of_docx single uploads_dir dirFiles hd] at h
        exact absurd h (by simp)
  · intro out h
    by_cases hd : dirFiles.filter (fun f => strEndsWith f ".docx") = []
    · rw [analyze_eq_error_of_no_docx single uploads_dir dirFiles hd] at h
      exact absurd h (by simp)
    · rw [analyze_eq_ok_of_docx single uploads_dir dirFiles hd] at h
      have h2 : batchCombined single
          (sortStrings (dirFiles.filter (fun f => strEndsWith f ".docx"))) = out :=
        Except.ok.inj h
      rw [← h2]
      refine ⟨rfl, ?_⟩
      show (sortStrings (dirFiles.filter (fun f => strEndsWith f ".docx"))).length = _
      rw [sortStrings, List.length_insertionSort]

/-- Witness for C9's amended claim: a batch over one `.docx` file processes
exactly that file. -/
theorem c9_witness :
    (analyze_uploads_folder (fun p => ⟨p, "Unknown"⟩) "uploads" ["uploads/b.docx"]).1 =
      Except.ok ⟨"Unknown", 1, 0, [], [⟨"uploads/b.docx", "Unknown"⟩]⟩ ∧
    ((⟨"Unknown", 1, 0, [], [⟨"uploads/b.docx", "Unknown"⟩]⟩ :
        CombinedOutput).per_file_results =
      (sortStrings (["uploads/b.docx"].filter (fun f => strEndsWith f ".docx"))).map
        (fun p => ⟨p, "Unknown"⟩) ∧
     (⟨"Unknown", 1, 0, [], [⟨"uploads/b.docx", "Unknown"⟩]⟩ :
        CombinedOutput).documents_uploaded =
      (["uploads/b.docx"].filter (fun f => strEndsWith f ".docx")).length) :=
  ⟨rfl,
   (c9_amended_docx_only (fun p => ⟨p, "Unknown"⟩) "uploads" ["uploads/b.docx"]).2 _ rfl⟩

/-! ### C1: parse-failure recovery vs a throwing model call -/

/-- Claim C1 (counterexample): (a) when the generative-model call itself
throws, `call_gemini_for_review` does NOT recover — the exception propagates
instead of a one-issue list being returned; (b) on a non-JSON response with
trailing whitespace, the synthetic Issue's raw field is the stripped text,
not the response verbatim.  (`fun _ => none` stands in for `json.loads`,
which does fail on the text "bad json".) -/
theorem c1_counterexample :
    call_gemini_for_review (α := Unit) (fun _ => .error "ServiceUnavailable")
      (fun _ => none) [] "doc" = .error "ServiceUnavailable" ∧
    call_gemini_for_review (α := Unit) (fun _ => .ok "bad json\n")
      (fun _ => none) [] "doc" = .ok [Issue.parseFail PARSE_FAIL_MSG "bad json"] ∧
    "bad json" ≠ "bad json\n" :=
  ⟨rfl, rfl, by decide⟩

/-- Claim C1 (amended): if the model call returns text whose stripped,
fence-removed form fails to parse as JSON, the Analyzer does not raise and
returns exactly one synthetic Issue whose raw field is that stripped,
fence-removed text (equal to the response verbatim only when stripping is
the identity on it); an exception thrown by the model call itself
propagates uncaught to the caller. -/
theorem c1_amended_parse_failure {α : Type} (generate : String → Except String String)
    (parseJson : String → Option (List α)) (chunks : List Hit) (doc_text : String) :
    (∀ t, generate (buildPrompt chunks doc_text) = .ok t →
      parseJson (stripFences (pyStrip t)) = none →
      call_gemini_for_review generate parseJson chunks doc_text =
        .ok [Issue.parseFail PARSE_FAIL_MSG (stripFences (pyStrip t))]) ∧
    (∀ e, generate (buildPrompt chunks doc_text) = .error e →
      call_gemini_for_review generate parseJson chunks doc_text = .error e) := by
  constructor
  · intro t ht hp
    unfold call_gemini_for_review
    rw [ht]
    show (match parseJson (stripFences (pyStrip t)) with
          | some issues => Except.ok (issues.map Issue.parsed)
          | none => Except.ok [Issue.parseFail PARSE_FAIL_MSG (stripFences (pyStrip t))]) = _
    rw [hp]
  · intro e he
    unfold call_gemini_for_review
    rw [he]

/-- Witness for C1's amended claim at a concrete non-JSON response. -/
theorem c1_witness :
    call_gemini_for_review (α := Unit) (fun _ => .ok "not json")
      (fun _ => none) [] "d" = .ok [Issue.parseFail PARSE_FAIL_MSG "not json"] :=
  (c1_amended_parse_failure (fun _ => .ok "not json") (fun _ => none) [] "d").1
    "not json" rfl rfl

/-! ### C5: retrieval, ascending distances, and FAISS -1 padding -/

theorem pyGetElem_pos {α : Type} (xs : List α) (i : Int) (h0 : 0 ≤ i)
    (hlt : i < (xs.length : Int)) :
    ∃ x, pyGetElem xs i = some x ∧ x ∈ xs := by
  have hni : ¬ i < 0 := by omega
  have hlt2 : i.toNat < xs.length := by omega
  refine ⟨xs.get ⟨i.toNat, hlt2⟩, ?_, List.get_mem ..⟩
  unfold pyGetElem
  rw [if_neg hni, List.get?_eq_get hlt2]

theorem buildHits_ok (texts metas : List String) (ps : List (ℚ × Int))
    (hb : ∀ p ∈ ps, 0 ≤ p.2 ∧ p.2 < (texts.length : Int) ∧ p.2 < (metas.length : Int)) :
    ∃ hits, buildHits texts metas ps = some hits ∧ hits.length = ps.length ∧
      ∀ x ∈ hits, x.text ∈ texts := by
  induction ps with
  | nil => exact ⟨[], rfl, rfl, by simp⟩
  | cons p rest ih =>
    obtain ⟨h0, h1, h2⟩ := hb p (by simp)
    obtain ⟨hits, hh, hl, hm⟩ := ih (fun q hq => hb q (by simp [hq]))
    obtain ⟨t, htt, htm⟩ := pyGetElem_pos texts p.2 h0 h1
    obtain ⟨m, hmm, _⟩ := pyGetElem_pos metas p.2 h0 h2
    refine ⟨⟨t, m⟩ :: hits, ?_, by simp [hl], ?_⟩
    · unfold buildHits
      rw [htt, hmm, hh]
    · intro x hx
      rcases List.mem_cons.mp hx with hx | hx
      · rw [hx]; exact htm
      · exact hm x hx

theorem faissSearch_mem_bound (n k : Nat) (dist : Nat → ℚ) (hk : k ≤ n) :
    ∀ p ∈ faissSearch n dist k, 0 ≤ p.2 ∧ p.2 < (n : Int) := by
  intro p hp
  rw [faissSearch, Nat.sub_eq_zero_of_le hk,
      show List.replicate 0 ((FLT_MAX, (-1 : Int)) : ℚ × Int) = [] from rfl,
      List.append_nil] at hp
  have hp2 : p ∈ List.insertionSort distLe (searchPairs n dist) :=
    List.Sublist.mem hp (List.take_sublist k _)
  have hp3 : p ∈ searchPairs n dist := (List.perm_insertionSort distLe _).mem_iff.mp hp2
  rw [searchPairs] at hp3
  obtain ⟨i, hi, hpe⟩ := List.mem_map.mp hp3
  rw [List.mem_range] at hi
  rw [← hpe]
  show 0 ≤ (i : Int) ∧ (i : Int) < (n : Int)
  omega

/-- Claim C5 (counterexample): with one stored vector and K = 2, FAISS pads
the result with label -1, and Python negative indexing turns that label into
the LAST chunk: retrieval returns 2 hits — more than the single chunk the
index holds — with that chunk duplicated. -/
theorem c5_counterexample :
    retrieve_context 1 (fun _ => 0) ["c0"] ["m0"] 2 =
      some [⟨"c0", "m0"⟩, ⟨"c0", "m0"⟩] := rfl

/-- Claim C5 (amended): whenever the index holds at least K vectors (and the
texts/metadata arrays are aligned with it), retrieval returns exactly K
hits, each an existing chunk, and the search distances are in non-decreasing
order; when the index holds fewer than K vectors the result is instead
padded to K entries, repeating the last chunk (see the counterexample). -/
theorem c5_amended_retrieval (n k : Nat) (dist : Nat → ℚ) (texts metas : List String)
    (ht : texts.length = n) (hm : metas.length = n) (hk : k ≤ n) :
    ∃ hits, retrieve_context n dist texts metas k = some hits ∧ hits.length = k ∧
      (∀ x ∈ hits, x.text ∈ texts) ∧
      ((faissSearch n dist k).map Prod.fst).Sorted (· ≤ ·) := by
  have hb : ∀ p ∈ faissSearch n dist k,
      0 ≤ p.2 ∧ p.2 < (texts.length : Int) ∧ p.2 < (metas.length : Int) := by
    intro p hp
    obtain ⟨ha, hc⟩ := faissSearch_mem_bound n k dist hk p hp
    exact ⟨ha, by rw [ht]; exact hc, by rw [hm]; exact hc⟩
  obtain ⟨hits, h1, h2, h3⟩ := buildHits_ok texts metas (faissSearch n dist k) hb
  have hlen : (faissSearch n dist k).length = k := by
    rw [faissSearch, Nat.sub_eq_zero_of_le hk,
        show List.replicate 0 ((FLT_MAX, (-1 : Int)) : ℚ × Int) = [] from rfl,
        List.append_nil, List.length_take, List.length_insertionSort,
        searchPairs, List.length_map, List.length_range]
    exact min_eq_left hk
  refine ⟨hits, h1, by rw [h2, hlen], h3, ?_⟩
  rw [faissSearch, Nat.sub_eq_zero_of_le hk,
      show List.replicate 0 ((FLT_MAX, (-1 : Int)) : ℚ × Int) = [] from rfl,
      List.append_nil]
  have hs : List.Pairwise distLe (List.insertionSort distLe (searchPairs n dist)) :=
    List.sorted_insertionSort distLe (searchPairs n dist)
  exact List.pairwise_map.mpr (hs.sublist (List.take_sublist k _))

/-- Witness for C5's amended claim: K = 1 on a one-vector index. -/
theorem c5_witness :
    ∃ hits, retrieve_context 1 (fun _ => 0) ["c0"] ["m0"] 1 = some hits ∧
      hits.length = 1 ∧ (∀ x ∈ hits, x.text ∈ ["c0"]) ∧
      ((faissSearch 1 (fun _ => 0) 1).map Prod.fst).Sorted (· ≤ ·) :=
  c5_amended_retrieval 1 1 (fun _ => 0) ["c0"] ["m0"] rfl rfl (by decide)

end ADGM
